import Mathlib

/-!
Shallow embedding of the aisynphys intrinsic-features pipeline module
(`aisynphys/pipeline/multipatch/intrinsic.py`) and the avg-response-fit
pipeline module (`multipatch_analysis/pipeline/multipatch/avg_response_fit.py`).

Conventions of the embedding:
* Trace samples, amplitudes and times are rationals (`Rat`), so unit
  conversions (×1e3, ×1e12, ...) are exact.
* Python exceptions are modelled with `Except PyErr`; code that cannot raise
  in the model returns a plain value wrapped in `.ok`.
* The external ipfx feature-extraction library (`extractors_for_sweeps`,
  `LongSquareAnalysis.analyze`, `as_dict` + `get_complete_long_square_features`,
  `np.mean(analysis[...].avg_rate)`, `extract_chirp_fft`) is an opaque
  collaborator: it is modelled as oracle structures (`LSLib`, `ChirpLib`)
  whose fields give the outcome of each library call.  The module code under
  verification is transcribed literally around those oracles.
* Python dictionaries are association lists `List (String × Rat)`; a lookup
  of a missing key raises (models `KeyError`).
* A crucial bit of Python semantics: calling a class `C(args)` allocates an
  instance and runs `C.__init__`; the value *returned* by `__init__` is
  discarded, so the call expression is never `None` (an early `return None`
  inside `__init__` merely leaves the instance with its `Sweep` fields
  unset).  `constructMPSweep` models this by returning `Option MPSweepObj`
  (the type the caller tests with `is not None`) whose value is always
  `some` of either an initialized sweep or a bare, uninitialized object.
-/

/-- A Python exception value: ipfx's domain-specific `FeatureError`, or any
other `Exception`.  `msg` is `str(exc)`. -/
inductive PyErr where
  | featureError (msg : String)
  | exc (msg : String)
deriving DecidableEq, Repr

/-- `str(exc)` for either exception kind. -/
def PyErr.msg : PyErr → String
  | .featureError m => m
  | .exc m => m

/-- Computation that may raise a Python exception. -/
abbrev Py (α : Type) : Type := Except PyErr α

/-- Python dict lookup `d[k]`; raises `KeyError` when the key is absent. -/
def dictGet (d : List (String × Rat)) (k : String) : Py Rat :=
  match d.lookup k with
  | some v => .ok v
  | none => .error (.exc ("KeyError: " ++ k))

/-- One stimulus epoch: `rec.stimulus.items` elements carry a description and
an amplitude (used to find the "holding current" epoch). -/
structure StimItem where
  description : String
  amplitude : Rat
deriving DecidableEq, Repr

/-- A recorded trace channel (neuroanalysis `TSeries`).
Modelled from the spec: the neuroanalysis trace class is not under src/; per
§3 a trace has samples, a sample rate and a start time, `copy(t0=x)` rebases
the start time, and `time_values` are the start time plus the sample index
over the sample rate. -/
structure Trace where
  data : List Rat
  t0 : Rat
  sampleRate : Rat
deriving DecidableEq, Repr

/-- `trace.copy(t0=x)`: same samples, rebased start time.
Modelled from the spec: §4.1 "shift all sample times by ... (or
caller-supplied t0) so analysis windows align". -/
def Trace.copyT0 (tr : Trace) (t0 : Rat) : Trace :=
  { tr with t0 := t0 }

/-- `trace.time_values`: start time plus index over sample rate.
Modelled from the spec: §3 "time values (shifted so pulse onset = t0)". -/
def Trace.timeValues (tr : Trace) : List Rat :=
  (List.range tr.data.length).map (fun i => tr.t0 + (i : Rat) / tr.sampleRate)

/-- One raw stimulus/response recording for one sweep of one cell (spec §3
RawRecording).  `pulseTimes` is the result of `get_pulse_times(rec)`
(modelled from the spec: that helper lives in `nwb_recordings`, not under
src/; per §3 the pulse time window "(start, end)" is "possibly absent"). -/
structure RawRecording where
  primary : Trace
  command : Trace
  stimulusItems : List StimItem
  clampMode : String
  parentKey : Nat
  pulseTimes : Option (Rat × Rat)
deriving DecidableEq, Repr

/-- An initialized ipfx `Sweep`: the arguments `MPSweep.__init__` passes to
`Sweep.__init__(self, t, v, i, clamp_mode, srate, sweep_number=...)`. -/
structure IpfxSweep where
  t : List Rat
  v : List Rat
  i : List Rat
  clampMode : String
  srate : Rat
  sweepNumber : Nat
deriving DecidableEq, Repr

/-- The object state produced by running `MPSweep.__init__`: either
`Sweep.__init__` ran (fields set), or `__init__` returned early on the
missing holding-current epoch and the instance is bare (Sweep fields never
initialized). -/
inductive MPSweepObj where
  | sweep (s : IpfxSweep)
  | bare
deriving DecidableEq, Repr

/-- Body of `MPSweep.__init__(self, rec, t0=0)`, transcribed from
`intrinsic.py` lines 193-210. -/
def MPSweep.init (rec : RawRecording) (t0 : Rat) : MPSweepObj :=
  let pri := rec.primary.copyT0 t0
  let t := pri.timeValues
  let v := rec.primary.data.map (fun x => x * 1000)
  let holding := rec.stimulusItems.filter (fun i => i.description == "holding current")
  match holding with
  | [] => .bare
  | h :: _ =>
    let i := rec.command.data.map (fun c => (c - h.amplitude) * 1000000000000)
    let clampMode := if rec.clampMode == "ic" then "CurrentClamp" else "VoltageClamp"
    .sweep ⟨t, v, i, clampMode, pri.sampleRate, rec.parentKey⟩

/-- The call expression `MPSweep(rec, t0)` as seen by the caller.  Python
call semantics: the class call allocates an instance, runs `__init__`, and
evaluates to the instance — never to `None`, regardless of what `__init__`
returns.  The `Option` is the type the caller's `is not None` test inspects. -/
def constructMPSweep (rec : RawRecording) (t0 : Rat) : Option MPSweepObj :=
  some (MPSweep.init rec t0)

/-- Oracle for the ipfx chirp library call
`extract_chirp_fft(sweep_set, min_freq=1, max_freq=15)`: given the sweep set
and the two frequency bounds, either raises or returns the feature dict. -/
structure ChirpLib where
  extract : List MPSweepObj → Rat → Rat → Py (List (String × Rat))

/-- The sweep-list construction loop of `get_chirp_features`
(lines 80-84): construct an `MPSweep` per recording, keep those that are
`not None`. -/
def chirpSweepList (recordings : List RawRecording) : List MPSweepObj :=
  (recordings.map (fun rec => constructMPSweep rec 0)).filterMap id

/-- The `try:`/`except FeatureError`/`except Exception` block of
`get_chirp_features` (lines 91-108): run the chirp FFT analysis, build the
results dict; any exception is converted to one error string and an empty
results dict. -/
def chirpAnalyzeBranch (lib : ChirpLib) (sweepSet : List MPSweepObj)
    (cellId : String) : List (String × Rat) × List String :=
  let attempt : Py (List (String × Rat)) := do
    let d ← lib.extract sweepSet 1 15
    let pf ← dictGet d "peak_freq"
    let f3 ← dictGet d "3db_freq"
    let pr ← dictGet d "peak_ratio"
    let pi ← dictGet d "peak_impedance"
    let sf ← dictGet d "sync_freq"
    let ip ← dictGet d "total_inductive_phase"
    pure [("chirp_peak_freq", pf), ("chirp_3db_freq", f3),
          ("chirp_peak_ratio", pr), ("chirp_peak_impedance", pi),
          ("chirp_sync_freq", sf), ("chirp_inductive_phase", ip)]
  match attempt with
  | .ok results => (results, [])
  | .error e =>
    ([], ["Error processing chirps for cell " ++ cellId ++ ": " ++ e.msg])

/-- `IntrinsicPipelineModule.get_chirp_features(recordings, cell_id)`
(lines 73-110), transcribed.  The `Py` wrapper records that, in the model,
nothing outside the try block can raise, so the function always returns
normally. -/
def get_chirp_features (lib : ChirpLib) (recordings : List RawRecording)
    (cellId : String) : Py (List (String × Rat) × List String) :=
  if recordings.length = 0 then
    .ok ([], ["No chirp sweeps for cell " ++ cellId])
  else
    let sweepList := chirpSweepList recordings
    if sweepList.length = 0 then
      .ok ([], ["No chirp sweeps passed qc for cell " ++ cellId])
    else
      .ok (chirpAnalyzeBranch lib sweepList cellId)

/-- Oracle for the ipfx long-square library calls of
`get_long_square_features`:
* `analyze sweeps start stop subthreshMinAmp` is the outcome of
  `extractors_for_sweeps(sweep_set, start=0, end=min_pulse_dur)` followed by
  `LongSquareAnalysis(spx, spfx, subthresh_min_amp=-200).analyze(sweep_set)`
  (the part inside the try block); `stop = none` models `np.inf`.
* `output` is the outcome of
  `get_complete_long_square_features(lsa.as_dict(analysis))` (outside the
  try block).
* `avgRate` is the outcome of
  `np.mean(analysis['spiking_sweeps'].avg_rate)` (outside the try block). -/
structure LSLib where
  analyze : List MPSweepObj → Rat → Option Rat → Int → Py Unit
  output : Py (List (String × Rat))
  avgRate : Py Rat

/-- One iteration of the sweep-collection loop of `get_long_square_features`
(lines 121-132): skip recordings without pulse times; otherwise fold the
pulse duration into the running minimum (initially `np.inf`, modelled
`none`) and append the constructed `MPSweep` when it `is not None`. -/
def lsLoopStep (st : Option Rat × List MPSweepObj) (rec : RawRecording) :
    Option Rat × List MPSweepObj :=
  match rec.pulseTimes with
  | none => st
  | some (start, stop) =>
    let dur := stop - start
    let minDur := match st.1 with
      | none => some dur
      | some m => some (min m dur)
    match constructMPSweep rec (-start) with
    | some sweep => (minDur, st.2 ++ [sweep])
    | none => (minDur, st.2)

/-- The whole sweep-collection loop: running minimum pulse duration and
collected sweep list. -/
def lsLoop (recordings : List RawRecording) : Option Rat × List MPSweepObj :=
  recordings.foldl lsLoopStep (none, [])

/-- `min_pulse_dur` after the loop (`none` = `np.inf`). -/
def lsMinPulseDur (recordings : List RawRecording) : Option Rat :=
  (lsLoop recordings).1

/-- `sweep_list` after the loop. -/
def lsSweepList (recordings : List RawRecording) : List MPSweepObj :=
  (lsLoop recordings).2

/-- The success path of `get_long_square_features` after `lsa.analyze`
returned (lines 148-175): `as_dict` + `get_complete_long_square_features`,
the average firing rate, then the results dict built from `output[...]`
lookups with unit rescaling.  All of this is outside the try block, so any
exception here propagates to the caller. -/
def lsSuccessBranch (lib : LSLib) :
    Py (List (String × Rat) × List String) := do
  let output ← lib.output
  let avgRate ← lib.avgRate
  let rheo ← dictGet output "rheobase_i"
  let fiSlope ← dictGet output "fi_fit_slope"
  let inputRes ← dictGet output "input_resistance"
  let inputResSS ← dictGet output "input_resistance_ss"
  let sag ← dictGet output "sag"
  let adaptMean ← dictGet output "adapt_mean"
  let udr ← dictGet output "upstroke_downstroke_ratio_hero"
  let upstroke ← dictGet output "upstroke_hero"
  let downstroke ← dictGet output "downstroke_hero"
  let width ← dictGet output "width_hero"
  let thresholdV ← dictGet output "threshold_v_hero"
  let peakDV ← dictGet output "peak_deltav_hero"
  let fastTroughDV ← dictGet output "fast_trough_deltav_hero"
  let isiAR ← dictGet output "isi_adapt_ratio"
  let upstrokeAR ← dictGet output "upstroke_adapt_ratio"
  let downstrokeAR ← dictGet output "downstroke_adapt_ratio"
  let widthAR ← dictGet output "width_adapt_ratio"
  let thresholdVAR ← dictGet output "threshold_v_adapt_ratio"
  pure ([("avg_firing_rate", avgRate),
         ("rheobase", rheo * (1 / 1000000000000)),
         ("fi_slope", fiSlope * (1 / 1000000000000)),
         ("input_resistance", inputRes * 1000000),
         ("input_resistance_ss", inputResSS * 1000000),
         ("sag", sag),
         ("adaptation_index", adaptMean),
         ("upstroke_downstroke_ratio", udr),
         ("upstroke", upstroke),
         ("downstroke", downstroke),
         ("width", width),
         ("threshold_v", thresholdV * (1 / 1000)),
         ("peak_deltav", peakDV * (1 / 1000)),
         ("fast_trough_deltav", fastTroughDV * (1 / 1000)),
         ("isi_adapt_ratio", isiAR),
         ("upstroke_adapt_ratio", upstrokeAR),
         ("downstroke_adapt_ratio", downstrokeAR),
         ("width_adapt_ratio", widthAR),
         ("threshold_v_adapt_ratio", thresholdVAR)], [])

/-- Lines 139-175 of `get_long_square_features`: configure the extractors
over the window `[0, min_pulse_dur]` with `subthresh_min_amp=-200`, run the
analysis inside a try block (exceptions become one error string), then run
the unprotected success path. -/
def lsAnalyzeBranch (lib : LSLib) (sweepList : List MPSweepObj)
    (minPulseDur : Option Rat) (cellId : String) :
    Py (List (String × Rat) × List String) :=
  match lib.analyze sweepList 0 minPulseDur (-200) with
  | .error e =>
    .ok ([], ["Error running long square analysis for cell " ++ cellId
              ++ ": " ++ e.msg])
  | .ok _ => lsSuccessBranch lib

/-- `IntrinsicPipelineModule.get_long_square_features(recordings, cell_id)`
(lines 112-175), transcribed. -/
def get_long_square_features (lib : LSLib) (recordings : List RawRecording)
    (cellId : String) : Py (List (String × Rat) × List String) :=
  if recordings.length = 0 then
    .ok ([], ["No long pulse sweeps for cell " ++ cellId])
  else
    let minPulseDur := lsMinPulseDur recordings
    let sweepList := lsSweepList recordings
    if sweepList.length = 0 then
      .ok ([], ["No long square sweeps passed qc for cell " ++ cellId])
    else
      lsAnalyzeBranch lib sweepList minPulseDur cellId

/-- One cell of the experiment.  `lpRecordings`/`chirpRecordings` model
`get_intrinsic_recording_dict(expt, dev_id, check_qc=True)['LP' / 'Chirp']`.
Modelled from the spec: `get_intrinsic_recording_dict` lives in
`nwb_recordings`, not under src/; per §4.2 the recordings arrive "partitioned
by protocol ('long pulse' vs 'chirp') and already quality-filtered upstream". -/
structure Cell where
  id : String
  lpRecordings : List RawRecording
  chirpRecordings : List RawRecording

/-- The experiment's raw data handle: `expt.data`, whose `contents`
may be `None` for a corrupt NWB. -/
structure NWB where
  contents : Option Unit

/-- The experiment as read from the database: its raw-data handle and its
cell list. -/
structure Experiment where
  data : Option NWB
  cellList : List Cell

/-- One row of the `intrinsic` table:
`db.Intrinsic(cell_id=cell.id, **lp_results, **chirp_results)`.  The merged
keyword dict is the concatenation of the two feature dicts (their key sets
are disjoint); features absent from both dicts are left NULL. -/
structure IntrinsicRecord where
  cellId : String
  features : List (String × Rat)
deriving DecidableEq, Repr

/-- The per-cell loop of `create_db_entries` (lines 57-71): for each cell run
both extractors, accumulate their error strings, and add one `Intrinsic`
record.  An exception raised by either extractor propagates (there is no
try/except around the loop body). -/
def processCells (lsLibOf : Cell → LSLib) (chirpLibOf : Cell → ChirpLib) :
    List Cell → List String × List IntrinsicRecord →
    Py (List String × List IntrinsicRecord)
  | [], acc => .ok acc
  | cell :: rest, acc =>
    match get_long_square_features (lsLibOf cell) cell.lpRecordings cell.id with
    | .error e => .error e
    | .ok lp =>
      match get_chirp_features (chirpLibOf cell) cell.chirpRecordings cell.id with
      | .error e => .error e
      | .ok chirp =>
        processCells lsLibOf chirpLibOf rest
          (acc.1 ++ lp.2 ++ chirp.2, acc.2 ++ [⟨cell.id, lp.1 ++ chirp.1⟩])

/-- `IntrinsicPipelineModule.create_db_entries(job, session)` (lines 42-71),
transcribed from the point where the experiment has been loaded.  The first
component of the result is the returned error list; the second collects the
records added to the session. -/
def create_db_entries (lsLibOf : Cell → LSLib) (chirpLibOf : Cell → ChirpLib)
    (expt : Experiment) : Py (List String × List IntrinsicRecord) :=
  match expt.data with
  | none => .ok (["No NWB data for this experiment"], [])
  | some nwb =>
    match nwb.contents with
    | none => .ok (["No NWB data for this experiment"], [])
    | some _ => processCells lsLibOf chirpLibOf expt.cellList ([], [])

/-- One curve fit for one (clamp mode, holding) condition of a pair.
Modelled from the spec: `get_pair_avg_fits` lives in `avg_response_fit.py` at
the package root, not under src/; per §4.5 a fit carries baseline offset,
time offset, amplitude, rise time, decay time constant, the extra
exponential amplitude/tau pair, a fit-quality NRMSE score, the fit latency,
and the manual-QC match flag. -/
structure PairFit where
  nrmse : Rat
  latency : Rat
  matchesQcPass : Bool
  xoffset : Rat
  yoffset : Rat
  amp : Rat
  riseTime : Rat
  decayTau : Rat
  expAmp : Rat
  expTau : Rat
deriving DecidableEq, Repr

/-- One pair of the experiment, together with the mapping
`get_pair_avg_fits(pair, session, s2)` returns for it: one fit per observed
(clamp mode, holding potential) condition.
Modelled from the spec: §4.5 "for each distinct (clamp mode, holding
potential) condition observed among that pair's averaged responses, obtain a
curve fit (via an external fitting collaborator)". -/
structure Pair where
  id : String
  fits : List ((String × Rat) × PairFit)

/-- The experiment as read by the avg-response-fit module: its pair list. -/
structure AvgExperiment where
  pairList : List Pair

/-- One row of the `avg_response_fit` table, with the seven dynamically
assigned `fit_`-prefixed columns as named fields. -/
structure AvgResponseFitRecord where
  pairId : String
  clampMode : String
  holding : Rat
  nrmse : Rat
  initialXoffset : Rat
  manualQcPass : Bool
  fitXoffset : Rat
  fitYoffset : Rat
  fitAmp : Rat
  fitRiseTime : Rat
  fitDecayTau : Rat
  fitExpAmp : Rat
  fitExpTau : Rat
deriving DecidableEq, Repr

/-- `AvgResponseFitPipelineModule.create_db_entries(job, session)`
(`avg_response_fit.py` lines 23-44), transcribed from the point where the
experiment has been loaded: for each pair, for each (mode, holding) entry of
its fit mapping, build one `AvgResponseFit` row (the `setattr(rec, 'fit_'+k,
fit[k])` loop becomes the seven `fit*` field assignments) and add it to the
session.  The result collects the added rows in order. -/
def avg_create_db_entries (expt : AvgExperiment) : List AvgResponseFitRecord :=
  expt.pairList.foldl (fun acc pair =>
    pair.fits.foldl (fun acc2 kf =>
      acc2 ++ [{ pairId := pair.id
                 clampMode := kf.1.1
                 holding := kf.1.2
                 nrmse := kf.2.nrmse
                 initialXoffset := kf.2.latency
                 manualQcPass := kf.2.matchesQcPass
                 fitXoffset := kf.2.xoffset
                 fitYoffset := kf.2.yoffset
                 fitAmp := kf.2.amp
                 fitRiseTime := kf.2.riseTime
                 fitDecayTau := kf.2.decayTau
                 fitExpAmp := kf.2.expAmp
                 fitExpTau := kf.2.expTau }]) acc) []

/-! ## Sample inputs used by witnesses and counterexamples -/

/-- A fully usable recording: pulse window and holding-current epoch present. -/
def goodRec : RawRecording :=
  { primary := ⟨[2, 3], 0, 10⟩
    command := ⟨[5, 7], 0, 10⟩
    stimulusItems := [⟨"holding current", 4⟩]
    clampMode := "ic"
    parentKey := 1
    pulseTimes := some (1, 3) }

/-- A recording whose stimulus epochs contain no "holding current" item. -/
def noHoldingRec : RawRecording :=
  { primary := ⟨[1], 0, 10⟩
    command := ⟨[2], 0, 10⟩
    stimulusItems := [⟨"bias current", 4⟩]
    clampMode := "ic"
    parentKey := 2
    pulseTimes := some (1, 2) }

/-- A recording lacking a detectable pulse-time window. -/
def noPulseRec : RawRecording :=
  { primary := ⟨[1], 0, 10⟩
    command := ⟨[2], 0, 10⟩
    stimulusItems := [⟨"holding current", 4⟩]
    clampMode := "ic"
    parentKey := 3
    pulseTimes := none }

/-- A long-square library oracle whose calls all succeed trivially (its
`output` dict is empty, so it only serves branches that never read it). -/
def trivialLSLib : LSLib :=
  { analyze := fun _ _ _ _ => .ok ()
    output := .ok []
    avgRate := .ok 0 }

/-- A chirp library oracle whose extraction yields an empty dict. -/
def trivialChirpLib : ChirpLib :=
  { extract := fun _ _ _ => .ok [] }

/-! ## Helper lemmas -/

/-- Since a Python constructor call is never `None`, the chirp sweep list is
exactly the per-recording `MPSweep.__init__` results. -/
theorem chirpSweepList_eq_map (recs : List RawRecording) :
    chirpSweepList recs = recs.map (fun r => MPSweep.init r 0) := by
  simp [chirpSweepList, constructMPSweep, List.filterMap_map]
  exact List.filterMap_eq_map _ ▸ rfl

/-! ## Claims -/

/-- C8: if the experiment's raw data is missing (`expt.data` is `None`) or
unusable (its `contents` is `None`), `create_db_entries` aborts the whole
job immediately: it returns exactly `['No NWB data for this experiment']`,
processes no cells, and adds no records. -/
theorem C8_no_nwb_aborts (lsLibOf : Cell → LSLib) (chirpLibOf : Cell → ChirpLib)
    (expt : Experiment)
    (h : expt.data = none ∨ ∃ nwb, expt.data = some nwb ∧ nwb.contents = none) :
    create_db_entries lsLibOf chirpLibOf expt =
      .ok (["No NWB data for this experiment"], []) := by
  rcases h with h | ⟨nwb, h, hc⟩
  · simp [create_db_entries, h]
  · simp [create_db_entries, h, hc]

theorem C8_witness :
    create_db_entries (fun _ => trivialLSLib) (fun _ => trivialChirpLib)
      ⟨none, [⟨"1", [goodRec], [goodRec]⟩]⟩ =
      .ok (["No NWB data for this experiment"], []) :=
  C8_no_nwb_aborts _ _ _ (Or.inl rfl)

/-- C2 (code bug): at the failing input — a recording with no
"holding current" stimulus epoch — the call `MPSweep(rec)` evaluates to a
bare (uninitialized) object, never to `None`, so the caller's
`is not None` filter does NOT exclude the recording from the sweep set:
the chirp sweep list built from it still has one element. -/
theorem C2_bare_sweep_not_excluded :
    constructMPSweep noHoldingRec 0 = some .bare ∧
    chirpSweepList [noHoldingRec] = [.bare] := by
  refine ⟨?_, ?_⟩ <;> rfl

/-- C10: for a non-empty recordings list, the `is not None` filter never
removes an entry — every recording contributes one element to the sweep
list — so `get_chirp_features` never takes the
"No chirp sweeps passed qc" branch and proceeds to the analysis branch. -/
theorem C10_qc_branch_unreachable (lib : ChirpLib) (recs : List RawRecording)
    (cid : String) (h : recs ≠ []) :
    (chirpSweepList recs).length = recs.length ∧
    get_chirp_features lib recs cid =
      .ok (chirpAnalyzeBranch lib (chirpSweepList recs) cid) := by
  have hlen : (chirpSweepList recs).length = recs.length := by
    rw [chirpSweepList_eq_map]; simp
  have h0 : recs.length ≠ 0 := by simpa [List.length_eq_zero] using h
  refine ⟨hlen, ?_⟩
  unfold get_chirp_features
  rw [if_neg h0, if_neg (by rw [hlen]; exact h0)]

theorem C10_witness :
    (chirpSweepList [goodRec]).length = [goodRec].length ∧
    get_chirp_features trivialChirpLib [goodRec] "1" =
      .ok (chirpAnalyzeBranch trivialChirpLib (chirpSweepList [goodRec]) "1") :=
  C10_qc_branch_unreachable trivialChirpLib [goodRec] "1" (List.cons_ne_nil _ _)

/-- C6: for every usable recording (one whose stimulus epochs contain a
"holding current" item, the first of which supplies the holding amplitude),
`MPSweep` yields an initialized sweep whose voltage is the raw primary
samples × 1000, whose current is (command samples − holding amplitude)
× 1e12, whose time values start at the caller-supplied `t0` (index over
sample rate), and whose clamp mode maps `ic` ↦ `CurrentClamp` and `vc` ↦
`VoltageClamp`. -/
theorem C6_normalized_sweep (rec : RawRecording) (t0 : Rat)
    (h : StimItem) (rest : List StimItem)
    (hh : rec.stimulusItems.filter (fun i => i.description == "holding current")
            = h :: rest) :
    ∃ s : IpfxSweep,
      constructMPSweep rec t0 = some (.sweep s) ∧
      s.v = rec.primary.data.map (fun x => x * 1000) ∧
      s.i = rec.command.data.map (fun c => (c - h.amplitude) * 1000000000000) ∧
      s.t = (List.range rec.primary.data.length).map
              (fun n => t0 + (n : Rat) / rec.primary.sampleRate) ∧
      s.srate = rec.primary.sampleRate ∧
      s.sweepNumber = rec.parentKey ∧
      (rec.clampMode = "ic" → s.clampMode = "CurrentClamp") ∧
      (rec.clampMode = "vc" → s.clampMode = "VoltageClamp") := by
  have hc : constructMPSweep rec t0 = some (.sweep
      ⟨(rec.primary.copyT0 t0).timeValues,
       rec.primary.data.map (fun x => x * 1000),
       rec.command.data.map (fun c => (c - h.amplitude) * 1000000000000),
       if rec.clampMode == "ic" then "CurrentClamp" else "VoltageClamp",
       (rec.primary.copyT0 t0).sampleRate, rec.parentKey⟩) := by
    simp [constructMPSweep, MPSweep.init, hh]
  refine ⟨_, hc, rfl, rfl, ?_, rfl, rfl, ?_, ?_⟩
  · simp [Trace.timeValues, Trace.copyT0]
  · intro hic
    show (if rec.clampMode == "ic" then "CurrentClamp" else "VoltageClamp")
           = "CurrentClamp"
    rw [hic]; rfl
  · intro hvc
    show (if rec.clampMode == "ic" then "CurrentClamp" else "VoltageClamp")
           = "VoltageClamp"
    rw [hvc]; rfl

theorem C6_witness :
    ∃ s : IpfxSweep,
      constructMPSweep goodRec (-1) = some (.sweep s) ∧
      s.v = goodRec.primary.data.map (fun x => x * 1000) ∧
      s.i = goodRec.command.data.map (fun c =>
              (c - (StimItem.mk "holding current" 4).amplitude) * 1000000000000) ∧
      s.t = (List.range goodRec.primary.data.length).map
              (fun n => -1 + (n : Rat) / goodRec.primary.sampleRate) ∧
      s.srate = goodRec.primary.sampleRate ∧
      s.sweepNumber = goodRec.parentKey ∧
      (goodRec.clampMode = "ic" → s.clampMode = "CurrentClamp") ∧
      (goodRec.clampMode = "vc" → s.clampMode = "VoltageClamp") :=
  C6_normalized_sweep goodRec (-1) ⟨"holding current", 4⟩ [] rfl

/-- Durations (end − start) of the supplied recordings that do have a pulse
window, in order. -/
def lsDurations (recs : List RawRecording) : List Rat :=
  recs.filterMap (fun r => r.pulseTimes.map (fun p => p.2 - p.1))

/-- The running-minimum update of the sweep-collection loop, abstracted over
a duration list (`none` models the initial `np.inf`). -/
def minStep : Option Rat → Rat → Rat
  | none, d => d
  | some m, d => min m d

def minFold : Option Rat → List Rat → Option Rat
  | acc, [] => acc
  | acc, d :: ds => minFold (some (minStep acc d)) ds

theorem minFold_some (ds : List Rat) : ∀ m, minFold (some m) ds = some (ds.foldl min m) := by
  induction ds with
  | nil => intro m; rfl
  | cons d ds ih => intro m; simp [minFold, minStep, List.foldl_cons, ih]

theorem foldlMin_mem (ds : List Rat) : ∀ d, ds.foldl min d ∈ d :: ds := by
  induction ds with
  | nil => intro d; simp
  | cons x xs ih =>
    intro d
    have h := ih (min d x)
    rcases min_choice d x with hm | hm <;> rw [hm] at h <;>
      simp only [List.foldl_cons, hm] <;> rcases List.mem_cons.mp h with h | h <;> simp [h]

theorem foldlMin_le_init (ds : List Rat) : ∀ d, ds.foldl min d ≤ d := by
  induction ds with
  | nil => intro d; exact le_refl d
  | cons y ys ih =>
    intro d
    calc ys.foldl min (min d y) ≤ min d y := ih (min d y)
      _ ≤ d := min_le_left _ _

theorem foldlMin_le (ds : List Rat) : ∀ d, ∀ x ∈ d :: ds, ds.foldl min d ≤ x := by
  induction ds with
  | nil =>
    intro d x hx
    rcases List.mem_cons.mp hx with h | h
    · exact h ▸ le_refl _
    · simp at h
  | cons y ys ih =>
    intro d x hx
    rcases List.mem_cons.mp hx with h | h
    · calc ys.foldl min (min d y) ≤ min d y := foldlMin_le_init ys _
        _ ≤ d := min_le_left _ _
        _ = x := h.symm
    · rcases List.mem_cons.mp h with h' | h'
      · calc ys.foldl min (min d y) ≤ min d y := foldlMin_le_init ys _
          _ ≤ y := min_le_right _ _
          _ = x := h'.symm
      · exact ih (min d y) x (List.mem_cons_of_mem _ h')

/-- The sweep list collected by the loop: recordings without a pulse window
are skipped; every other recording contributes its constructed `MPSweep`
(shifted by minus the pulse start). -/
theorem lsLoop_snd (recs : List RawRecording) :
    ∀ st, (recs.foldl lsLoopStep st).2 =
      st.2 ++ recs.filterMap (fun r => r.pulseTimes.map (fun p => MPSweep.init r (-p.1))) := by
  induction recs with
  | nil => intro st; simp
  | cons r rest ih =>
    intro st
    rcases hr : r.pulseTimes with _ | ⟨start, stop⟩
    · simp [List.foldl_cons, lsLoopStep, hr, ih]
    · simp [List.foldl_cons, lsLoopStep, hr, constructMPSweep, ih]

/-- The running minimum computed by the loop is `minFold` over the pulse
durations. -/
theorem lsLoop_fst (recs : List RawRecording) :
    ∀ st, (recs.foldl lsLoopStep st).1 = minFold st.1 (lsDurations recs) := by
  induction recs with
  | nil => intro st; rfl
  | cons r rest ih =>
    intro st
    rcases hr : r.pulseTimes with _ | ⟨start, stop⟩
    · simp [List.foldl_cons, lsLoopStep, hr, ih, lsDurations]
    · rcases st with ⟨acc, sl⟩
      rcases acc with _ | m <;>
        simp [List.foldl_cons, lsLoopStep, hr, constructMPSweep, ih, lsDurations,
              minFold, minStep]

theorem lsSweepList_eq_filterMap (recs : List RawRecording) :
    lsSweepList recs =
      recs.filterMap (fun r => r.pulseTimes.map (fun p => MPSweep.init r (-p.1))) := by
  simpa using lsLoop_snd recs (none, [])

theorem lsMinPulseDur_eq_minFold (recs : List RawRecording) :
    lsMinPulseDur recs = minFold none (lsDurations recs) :=
  lsLoop_fst recs (none, [])

/-- Two `filterMap`s over the same `Option.map` spine have the same length. -/
theorem filterMap_optionMap_length {α β : Type}
    (f : RawRecording → Rat × Rat → α) (g : RawRecording → Rat × Rat → β)
    (recs : List RawRecording) :
    (recs.filterMap (fun r => r.pulseTimes.map (f r))).length =
      (recs.filterMap (fun r => r.pulseTimes.map (g r))).length := by
  induction recs with
  | nil => rfl
  | cons r rest ih =>
    rcases hr : r.pulseTimes with _ | p <;> simp [List.filterMap_cons, hr, ih]

theorem lsDurations_length (recs : List RawRecording) :
    (lsDurations recs).length = (lsSweepList recs).length := by
  rw [lsSweepList_eq_filterMap, lsDurations]
  exact filterMap_optionMap_length _ _ recs

/-- `get_chirp_features` on a non-empty recordings list always reaches the
analysis branch (the qc filter keeps every constructed sweep). -/
theorem gchf_nonempty (lib : ChirpLib) (recs : List RawRecording) (cid : String)
    (h : recs ≠ []) :
    get_chirp_features lib recs cid =
      .ok (chirpAnalyzeBranch lib (chirpSweepList recs) cid) := by
  have h0 : recs.length ≠ 0 := by simpa [List.length_eq_zero] using h
  have hlen : (chirpSweepList recs).length = recs.length := by
    rw [chirpSweepList_eq_map]; simp
  unfold get_chirp_features
  rw [if_neg h0, if_neg (by rw [hlen]; exact h0)]

/-- C7: in `get_long_square_features`, recordings lacking a pulse window are
skipped (they contribute neither a sweep nor an error), and the extractors
are configured to analyze exactly the window `[0, d]` — `lsAnalyzeBranch`
passes `start = 0` and `end = lsMinPulseDur recs` to the library — where
`d` is the minimum of (end − start) over all supplied recordings that do
have a pulse window. -/
theorem C7_window_and_skips (lib : LSLib) (recs : List RawRecording) (cid : String)
    (hne : recs ≠ []) (hsw : lsSweepList recs ≠ []) :
    lsSweepList recs =
      recs.filterMap (fun r => r.pulseTimes.map (fun p => MPSweep.init r (-p.1))) ∧
    get_long_square_features lib recs cid =
      lsAnalyzeBranch lib (lsSweepList recs) (lsMinPulseDur recs) cid ∧
    ∃ d, lsMinPulseDur recs = some d ∧ d ∈ lsDurations recs ∧
      ∀ x ∈ lsDurations recs, d ≤ x := by
  have h0 : recs.length ≠ 0 := by simpa [List.length_eq_zero] using hne
  have hs0 : (lsSweepList recs).length ≠ 0 := by
    simpa [List.length_eq_zero] using hsw
  refine ⟨lsSweepList_eq_filterMap recs, ?_, ?_⟩
  · unfold get_long_square_features
    rw [if_neg h0, if_neg hs0]
  · rcases hd : lsDurations recs with _ | ⟨d0, ds⟩
    · exfalso
      have := lsDurations_length recs
      rw [hd] at this
      exact hs0 this.symm
    · refine ⟨ds.foldl min d0, ?_, ?_, ?_⟩
      · rw [lsMinPulseDur_eq_minFold, hd]
        show minFold (some (minStep none d0)) ds = _
        rw [show minStep none d0 = d0 from rfl, minFold_some]
      · exact foldlMin_mem ds d0
      · exact foldlMin_le ds d0

theorem C7_witness :
    lsSweepList [noPulseRec, goodRec] =
      [noPulseRec, goodRec].filterMap
        (fun r => r.pulseTimes.map (fun p => MPSweep.init r (-p.1))) ∧
    get_long_square_features trivialLSLib [noPulseRec, goodRec] "1" =
      lsAnalyzeBranch trivialLSLib (lsSweepList [noPulseRec, goodRec])
        (lsMinPulseDur [noPulseRec, goodRec]) "1" ∧
    ∃ d, lsMinPulseDur [noPulseRec, goodRec] = some d ∧
      d ∈ lsDurations [noPulseRec, goodRec] ∧
      ∀ x ∈ lsDurations [noPulseRec, goodRec], d ≤ x :=
  C7_window_and_skips trivialLSLib [noPulseRec, goodRec] "1"
    (List.cons_ne_nil _ _) (by decide)

/-- C3 (counterexample): with one long-pulse recording lacking a pulse
window, the qc-failure error string names the protocol "long square", not
"long pulse" as the claim's uniform `No <protocol> sweeps passed qc`
template predicts. -/
theorem C3_counterexample :
    get_long_square_features trivialLSLib [noPulseRec] "7" =
      .ok ([], ["No long square sweeps passed qc for cell 7"]) ∧
    ¬ get_long_square_features trivialLSLib [noPulseRec] "7" =
      .ok ([], ["No long pulse sweeps passed qc for cell 7"]) := by
  have h : get_long_square_features trivialLSLib [noPulseRec] "7" =
      .ok ([], ["No long square sweeps passed qc for cell 7"]) := rfl
  refine ⟨h, ?_⟩
  rw [h]
  intro hco
  have := Except.ok.inj hco
  simp at this

/-- C3 (amended): with zero recordings each protocol yields exactly one
`No <protocol> sweeps for cell X` error and an empty feature mapping,
returning normally; for the long-pulse protocol, when recordings exist but
none yields a sweep (all lack a pulse window) the single error string is
`No long square sweeps passed qc for cell X` (the message says
"long square", not "long pulse"); for the chirp protocol the qc-failure
branch is never taken on a non-empty recordings list, since construction
always yields a (non-`None`) sweep object. -/
theorem C3_amended_messages (lsLib : LSLib) (chLib : ChirpLib) (cid : String)
    (recs : List RawRecording) (hne : recs ≠ [])
    (hnp : ∀ r ∈ recs, r.pulseTimes = none) :
    get_long_square_features lsLib [] cid =
      .ok ([], ["No long pulse sweeps for cell " ++ cid]) ∧
    get_chirp_features chLib [] cid =
      .ok ([], ["No chirp sweeps for cell " ++ cid]) ∧
    get_long_square_features lsLib recs cid =
      .ok ([], ["No long square sweeps passed qc for cell " ++ cid]) ∧
    get_chirp_features chLib recs cid =
      .ok (chirpAnalyzeBranch chLib (chirpSweepList recs) cid) := by
  have h0 : recs.length ≠ 0 := by simpa [List.length_eq_zero] using hne
  have hempty : lsSweepList recs = [] := by
    rw [lsSweepList_eq_filterMap, List.filterMap_eq_nil_iff]
    intro r hr
    simp [hnp r hr]
  refine ⟨rfl, rfl, ?_, gchf_nonempty chLib recs cid hne⟩
  unfold get_long_square_features
  rw [if_neg h0, if_pos (by rw [hempty]; rfl)]

theorem C3_witness :
    get_long_square_features trivialLSLib [] "9" =
      .ok ([], ["No long pulse sweeps for cell 9"]) ∧
    get_chirp_features trivialChirpLib [] "9" =
      .ok ([], ["No chirp sweeps for cell 9"]) ∧
    get_long_square_features trivialLSLib [noPulseRec] "9" =
      .ok ([], ["No long square sweeps passed qc for cell 9"]) ∧
    get_chirp_features trivialChirpLib [noPulseRec] "9" =
      .ok (chirpAnalyzeBranch trivialChirpLib (chirpSweepList [noPulseRec]) "9") :=
  C3_amended_messages trivialLSLib trivialChirpLib "9" [noPulseRec]
    (List.cons_ne_nil _ _) (by decide)

/-- The raw output dict of `get_complete_long_square_features`, holding the
eighteen keys read by the results-building code. -/
def lsRawDict (ri fi ir irs sg ad udr up dn w tv pdv ftdv iar uar dar war tvar : Rat) :
    List (String × Rat) :=
  [("rheobase_i", ri), ("fi_fit_slope", fi), ("input_resistance", ir),
   ("input_resistance_ss", irs), ("sag", sg), ("adapt_mean", ad),
   ("upstroke_downstroke_ratio_hero", udr), ("upstroke_hero", up),
   ("downstroke_hero", dn), ("width_hero", w), ("threshold_v_hero", tv),
   ("peak_deltav_hero", pdv), ("fast_trough_deltav_hero", ftdv),
   ("isi_adapt_ratio", iar), ("upstroke_adapt_ratio", uar),
   ("downstroke_adapt_ratio", dar), ("width_adapt_ratio", war),
   ("threshold_v_adapt_ratio", tvar)]

/-- C5: whenever the long-square analysis succeeds (the analyze call returns,
the post-processed output dict carries the eighteen raw keys, and the
average-rate computation returns), `get_long_square_features` returns a
mapping with every key of the §4.3 schema, each with its exact scale factor:
rheobase and fi_slope ×1e-12, input_resistance(_ss) ×1e6, threshold_v,
peak_deltav and fast_trough_deltav ×1e-3, all others ×1. -/
theorem C5_schema_and_scaling (lib : LSLib) (recs : List RawRecording) (cid : String)
    (ar ri fi ir irs sg ad udr up dn w tv pdv ftdv iar uar dar war tvar : Rat)
    (hne : recs ≠ []) (hsw : lsSweepList recs ≠ [])
    (hana : lib.analyze (lsSweepList recs) 0 (lsMinPulseDur recs) (-200) = .ok ())
    (hout : lib.output =
      .ok (lsRawDict ri fi ir irs sg ad udr up dn w tv pdv ftdv iar uar dar war tvar))
    (har : lib.avgRate = .ok ar) :
    get_long_square_features lib recs cid = .ok
      ([("avg_firing_rate", ar),
        ("rheobase", ri * (1 / 1000000000000)),
        ("fi_slope", fi * (1 / 1000000000000)),
        ("input_resistance", ir * 1000000),
        ("input_resistance_ss", irs * 1000000),
        ("sag", sg),
        ("adaptation_index", ad),
        ("upstroke_downstroke_ratio", udr),
        ("upstroke", up),
        ("downstroke", dn),
        ("width", w),
        ("threshold_v", tv * (1 / 1000)),
        ("peak_deltav", pdv * (1 / 1000)),
        ("fast_trough_deltav", ftdv * (1 / 1000)),
        ("isi_adapt_ratio", iar),
        ("upstroke_adapt_ratio", uar),
        ("downstroke_adapt_ratio", dar),
        ("width_adapt_ratio", war),
        ("threshold_v_adapt_ratio", tvar)], []) := by
  have h0 : recs.length ≠ 0 := by simpa [List.length_eq_zero] using hne
  have hs0 : (lsSweepList recs).length ≠ 0 := by simpa [List.length_eq_zero] using hsw
  unfold get_long_square_features
  rw [if_neg h0, if_neg hs0]
  unfold lsAnalyzeBranch
  rw [hana]
  unfold lsSuccessBranch
  rw [hout, har]
  rfl

/-- Library oracle used by witnesses: every call succeeds, with raw values
1..18 (and `threshold_v_hero = -20`, echoing the spec's worked example) and
average rate 20. -/
def sampleLSLib : LSLib :=
  { analyze := fun _ _ _ _ => .ok ()
    output := .ok (lsRawDict 1 2 3 4 5 6 7 8 9 10 (-20) 12 13 14 15 16 17 18)
    avgRate := .ok 20 }

theorem C5_witness :
    get_long_square_features sampleLSLib [goodRec] "1" = .ok
      ([("avg_firing_rate", 20),
        ("rheobase", 1 * (1 / 1000000000000)),
        ("fi_slope", 2 * (1 / 1000000000000)),
        ("input_resistance", 3 * 1000000),
        ("input_resistance_ss", 4 * 1000000),
        ("sag", 5),
        ("adaptation_index", 6),
        ("upstroke_downstroke_ratio", 7),
        ("upstroke", 8),
        ("downstroke", 9),
        ("width", 10),
        ("threshold_v", -20 * (1 / 1000)),
        ("peak_deltav", 12 * (1 / 1000)),
        ("fast_trough_deltav", 13 * (1 / 1000)),
        ("isi_adapt_ratio", 14),
        ("upstroke_adapt_ratio", 15),
        ("downstroke_adapt_ratio", 16),
        ("width_adapt_ratio", 17),
        ("threshold_v_adapt_ratio", 18)], []) ∧
    (-20 : Rat) * (1 / 1000) = -(2 / 100) :=
  ⟨C5_schema_and_scaling sampleLSLib [goodRec] "1"
      20 1 2 3 4 5 6 7 8 9 10 (-20) 12 13 14 15 16 17 18
      (List.cons_ne_nil _ _) (by decide) rfl rfl rfl,
   by norm_num⟩

/-- `get_chirp_features` returns normally on every input: all its failure
paths are inside the try block and become strings. -/
theorem gchf_ok (lib : ChirpLib) (recs : List RawRecording) (cid : String) :
    ∃ v, get_chirp_features lib recs cid = .ok v := by
  by_cases h : recs.length = 0
  · exact ⟨_, by unfold get_chirp_features; rw [if_pos h]⟩
  · by_cases h2 : (chirpSweepList recs).length = 0
    · exact ⟨_, by unfold get_chirp_features; rw [if_neg h, if_pos h2]⟩
    · exact ⟨_, by unfold get_chirp_features; rw [if_neg h, if_neg h2]⟩

/-- The per-cell loop returns normally as long as each cell's long-square
extraction returns normally (chirp extraction always does). -/
theorem processCells_ok (lsLibOf : Cell → LSLib) (chirpLibOf : Cell → ChirpLib)
    (cells : List Cell)
    (h : ∀ cell ∈ cells,
      ∃ v, get_long_square_features (lsLibOf cell) cell.lpRecordings cell.id = .ok v) :
    ∀ acc, ∃ w, processCells lsLibOf chirpLibOf cells acc = .ok w := by
  induction cells with
  | nil => intro acc; exact ⟨acc, rfl⟩
  | cons cell rest ih =>
    intro acc
    obtain ⟨lp, hlp⟩ := h cell (List.mem_cons_self _ _)
    obtain ⟨ch, hch⟩ := gchf_ok (chirpLibOf cell) cell.chirpRecordings cell.id
    obtain ⟨w, hw⟩ := ih (fun c hc => h c (List.mem_cons_of_mem _ hc))
      (acc.1 ++ lp.2 ++ ch.2, acc.2 ++ [⟨cell.id, lp.1 ++ ch.1⟩])
    refine ⟨w, ?_⟩
    rw [show processCells lsLibOf chirpLibOf (cell :: rest) acc =
          match get_long_square_features (lsLibOf cell) cell.lpRecordings cell.id with
          | .error e => .error e
          | .ok lp =>
            match get_chirp_features (chirpLibOf cell) cell.chirpRecordings cell.id with
            | .error e => .error e
            | .ok chirp =>
              processCells lsLibOf chirpLibOf rest
                (acc.1 ++ lp.2 ++ chirp.2, acc.2 ++ [⟨cell.id, lp.1 ++ chirp.1⟩])
        from rfl, hlp, hch]
    exact hw

/-- C1 (amended): exceptions raised inside the two protected regions — the
long-square analyze call and the chirp try-block — are converted to
descriptive strings in the returned error list and processing continues
(in particular `create_db_entries` returns normally whenever each cell's
long-square extraction returns normally); the post-analysis steps of the
long-square path are NOT protected, so their exceptions escape (see the
counterexample theorem). -/
theorem C1_amended_catch_boundaries :
    (∀ (lib : LSLib) (recs : List RawRecording) (cid : String) (e : PyErr),
      recs ≠ [] → lsSweepList recs ≠ [] →
      lib.analyze (lsSweepList recs) 0 (lsMinPulseDur recs) (-200) = .error e →
      get_long_square_features lib recs cid =
        .ok ([], ["Error running long square analysis for cell " ++ cid
                  ++ ": " ++ e.msg])) ∧
    (∀ (lib : ChirpLib) (recs : List RawRecording) (cid : String),
      ∃ v, get_chirp_features lib recs cid = .ok v) ∧
    (∀ (lsLibOf : Cell → LSLib) (chirpLibOf : Cell → ChirpLib) (expt : Experiment),
      (∀ cell ∈ expt.cellList,
        ∃ v, get_long_square_features (lsLibOf cell) cell.lpRecordings cell.id = .ok v) →
      ∃ w, create_db_entries lsLibOf chirpLibOf expt = .ok w) := by
  refine ⟨?_, gchf_ok, ?_⟩
  · intro lib recs cid e hne hsw hana
    have h0 : recs.length ≠ 0 := by simpa [List.length_eq_zero] using hne
    have hs0 : (lsSweepList recs).length ≠ 0 := by
      simpa [List.length_eq_zero] using hsw
    unfold get_long_square_features
    rw [if_neg h0, if_neg hs0]
    unfold lsAnalyzeBranch
    rw [hana]
  · intro lsLibOf chirpLibOf expt h
    rcases expt with ⟨data, cells⟩
    rcases data with _ | ⟨contents⟩
    · exact ⟨_, rfl⟩
    · rcases contents with _ | u
      · exact ⟨_, rfl⟩
      · exact processCells_ok lsLibOf chirpLibOf cells h ([], [])

/-- A long-square oracle whose analyze call (inside the try block) fails. -/
def failLSLib : LSLib :=
  { analyze := fun _ _ _ _ => .error (.exc "fail")
    output := .ok []
    avgRate := .ok 0 }

theorem C1_witness :
    get_long_square_features failLSLib [goodRec] "1" =
      .ok ([], ["Error running long square analysis for cell 1: fail"]) ∧
    (∃ v, get_chirp_features trivialChirpLib [goodRec] "1" = .ok v) ∧
    (∃ w, create_db_entries (fun _ => failLSLib) (fun _ => trivialChirpLib)
        ⟨some ⟨some ()⟩, [⟨"1", [goodRec], [goodRec]⟩]⟩ = .ok w) := by
  obtain ⟨h1, h2, h3⟩ := C1_amended_catch_boundaries
  refine ⟨?_, h2 trivialChirpLib [goodRec] "1", h3 _ _ _ ?_⟩
  · exact h1 failLSLib [goodRec] "1" (.exc "fail")
      (List.cons_ne_nil _ _) (by decide) rfl
  · intro cell hc
    have hc' : cell = ⟨"1", [goodRec], [goodRec]⟩ := by simpa using hc
    subst hc'
    exact ⟨_, rfl⟩

/-- A long-square oracle whose analyze call succeeds but whose unprotected
post-analysis step (`get_complete_long_square_features`) raises. -/
def postFailLSLib : LSLib :=
  { analyze := fun _ _ _ _ => .ok ()
    output := .error (.exc "boom")
    avgRate := .ok 0 }

/-- C1 (counterexample): with usable NWB data and two cells whose
long-square analyze succeeds but whose post-analysis feature-dictionary step
raises, the exception escapes the first cell's processing and
`create_db_entries` aborts with it: no error list is returned and the second
cell is never processed — contradicting the claim that every failure in the
post-analysis steps is converted to a string in the job-level error list. -/
theorem C1_counterexample :
    create_db_entries (fun _ => postFailLSLib) (fun _ => trivialChirpLib)
      ⟨some ⟨some ()⟩, [⟨"1", [goodRec], []⟩, ⟨"2", [goodRec], []⟩]⟩ =
      .error (.exc "boom") := by
  rfl

/-- Unfolding equation for one successful step of the per-cell loop. -/
theorem processCells_cons (lsLibOf : Cell → LSLib) (chirpLibOf : Cell → ChirpLib)
    (cell : Cell) (rest : List Cell) (acc : List String × List IntrinsicRecord)
    (lp chirp : List (String × Rat) × List String)
    (h1 : get_long_square_features (lsLibOf cell) cell.lpRecordings cell.id = .ok lp)
    (h2 : get_chirp_features (chirpLibOf cell) cell.chirpRecordings cell.id = .ok chirp) :
    processCells lsLibOf chirpLibOf (cell :: rest) acc =
      processCells lsLibOf chirpLibOf rest
        (acc.1 ++ lp.2 ++ chirp.2, acc.2 ++ [⟨cell.id, lp.1 ++ chirp.1⟩]) := by
  rw [show processCells lsLibOf chirpLibOf (cell :: rest) acc =
        match get_long_square_features (lsLibOf cell) cell.lpRecordings cell.id with
        | .error e => .error e
        | .ok lp =>
          match get_chirp_features (chirpLibOf cell) cell.chirpRecordings cell.id with
          | .error e => .error e
          | .ok chirp =>
            processCells lsLibOf chirpLibOf rest
              (acc.1 ++ lp.2 ++ chirp.2, acc.2 ++ [⟨cell.id, lp.1 ++ chirp.1⟩])
      from rfl, h1, h2]

/-- C4: for an experiment with usable NWB data and two cells — the first
with valid long-square and chirp data (both extractions succeed with no
errors), the second with no recordings of either protocol —
`create_db_entries` returns exactly the second cell's two missing-protocol
error strings and adds exactly one record per cell, the second cell's record
carrying no features (all derived fields left NULL). -/
theorem C4_two_cell_end_to_end (lsLibOf : Cell → LSLib) (chirpLibOf : Cell → ChirpLib)
    (idA idB : String) (recsLP recsCh : List RawRecording)
    (resA chA : List (String × Rat))
    (hA1 : get_long_square_features (lsLibOf ⟨idA, recsLP, recsCh⟩) recsLP idA =
      .ok (resA, []))
    (hA2 : get_chirp_features (chirpLibOf ⟨idA, recsLP, recsCh⟩) recsCh idA =
      .ok (chA, [])) :
    create_db_entries lsLibOf chirpLibOf
      ⟨some ⟨some ()⟩, [⟨idA, recsLP, recsCh⟩, ⟨idB, [], []⟩]⟩ =
      .ok (["No long pulse sweeps for cell " ++ idB,
            "No chirp sweeps for cell " ++ idB],
           [⟨idA, resA ++ chA⟩, ⟨idB, []⟩]) := by
  have hB1 : get_long_square_features (lsLibOf ⟨idB, [], []⟩) [] idB =
      .ok ([], ["No long pulse sweeps for cell " ++ idB]) := rfl
  have hB2 : get_chirp_features (chirpLibOf ⟨idB, [], []⟩) [] idB =
      .ok ([], ["No chirp sweeps for cell " ++ idB]) := rfl
  show processCells lsLibOf chirpLibOf [⟨idA, recsLP, recsCh⟩, ⟨idB, [], []⟩] ([], []) = _
  rw [processCells_cons lsLibOf chirpLibOf _ _ _ _ _ hA1 hA2,
      processCells_cons lsLibOf chirpLibOf _ _ _ _ _ hB1 hB2]
  simp [processCells]

/-- A chirp oracle whose extraction succeeds with values 1..6. -/
def sampleChirpLib : ChirpLib :=
  { extract := fun _ _ _ => .ok
      [("peak_freq", 1), ("3db_freq", 2), ("peak_ratio", 3),
       ("peak_impedance", 4), ("sync_freq", 5), ("total_inductive_phase", 6)] }

theorem C4_witness :
    create_db_entries (fun _ => sampleLSLib) (fun _ => sampleChirpLib)
      ⟨some ⟨some ()⟩, [⟨"A", [goodRec], [goodRec]⟩, ⟨"B", [], []⟩]⟩ =
      .ok (["No long pulse sweeps for cell B", "No chirp sweeps for cell B"],
           [⟨"A",
             [("avg_firing_rate", 20),
              ("rheobase", 1 * (1 / 1000000000000)),
              ("fi_slope", 2 * (1 / 1000000000000)),
              ("input_resistance", 3 * 1000000),
              ("input_resistance_ss", 4 * 1000000),
              ("sag", 5),
              ("adaptation_index", 6),
              ("upstroke_downstroke_ratio", 7),
              ("upstroke", 8),
              ("downstroke", 9),
              ("width", 10),
              ("threshold_v", -20 * (1 / 1000)),
              ("peak_deltav", 12 * (1 / 1000)),
              ("fast_trough_deltav", 13 * (1 / 1000)),
              ("isi_adapt_ratio", 14),
              ("upstroke_adapt_ratio", 15),
              ("downstroke_adapt_ratio", 16),
              ("width_adapt_ratio", 17),
              ("threshold_v_adapt_ratio", 18),
              ("chirp_peak_freq", 1), ("chirp_3db_freq", 2),
              ("chirp_peak_ratio", 3), ("chirp_peak_impedance", 4),
              ("chirp_sync_freq", 5), ("chirp_inductive_phase", 6)]⟩,
            ⟨"B", []⟩]) :=
  C4_two_cell_end_to_end (fun _ => sampleLSLib) (fun _ => sampleChirpLib)
    "A" "B" [goodRec] [goodRec]
    [("avg_firing_rate", 20),
     ("rheobase", 1 * (1 / 1000000000000)),
     ("fi_slope", 2 * (1 / 1000000000000)),
     ("input_resistance", 3 * 1000000),
     ("input_resistance_ss", 4 * 1000000),
     ("sag", 5),
     ("adaptation_index", 6),
     ("upstroke_downstroke_ratio", 7),
     ("upstroke", 8),
     ("downstroke", 9),
     ("width", 10),
     ("threshold_v", -20 * (1 / 1000)),
     ("peak_deltav", 12 * (1 / 1000)),
     ("fast_trough_deltav", 13 * (1 / 1000)),
     ("isi_adapt_ratio", 14),
     ("upstroke_adapt_ratio", 15),
     ("downstroke_adapt_ratio", 16),
     ("width_adapt_ratio", 17),
     ("threshold_v_adapt_ratio", 18)]
    [("chirp_peak_freq", 1), ("chirp_3db_freq", 2), ("chirp_peak_ratio", 3),
     ("chirp_peak_impedance", 4), ("chirp_sync_freq", 5),
     ("chirp_inductive_phase", 6)]
    rfl rfl

/-- The `AvgResponseFit` row built for one pair and one (mode, holding) fit
entry, as assembled by the loop body. -/
def avgRecordOf (pid : String) (kf : (String × Rat) × PairFit) : AvgResponseFitRecord :=
  { pairId := pid
    clampMode := kf.1.1
    holding := kf.1.2
    nrmse := kf.2.nrmse
    initialXoffset := kf.2.latency
    manualQcPass := kf.2.matchesQcPass
    fitXoffset := kf.2.xoffset
    fitYoffset := kf.2.yoffset
    fitAmp := kf.2.amp
    fitRiseTime := kf.2.riseTime
    fitDecayTau := kf.2.decayTau
    fitExpAmp := kf.2.expAmp
    fitExpTau := kf.2.expTau }

theorem avg_fits_foldl (pid : String) (fits : List ((String × Rat) × PairFit)) :
    ∀ acc, fits.foldl (fun a kf => a ++ [avgRecordOf pid kf]) acc =
      acc ++ fits.map (avgRecordOf pid) := by
  induction fits with
  | nil => intro acc; simp
  | cons kf rest ih => intro acc; simp [List.foldl_cons, ih]

theorem avg_pairs_foldl (l : List Pair) :
    ∀ acc, l.foldl
        (fun acc p => p.fits.foldl (fun a kf => a ++ [avgRecordOf p.id kf]) acc) acc =
      acc ++ l.flatMap (fun p => p.fits.map (avgRecordOf p.id)) := by
  induction l with
  | nil => intro acc; simp
  | cons p rest ih =>
    intro acc
    rw [List.foldl_cons, avg_fits_foldl, ih, List.flatMap_cons, List.append_assoc]

/-- C9: the avg-response-fit module adds exactly one `AvgResponseFit` record
per pair and per (clamp mode, holding) condition of that pair's fit mapping;
each record carries the NRMSE score, the fit latency as `initial_xoffset`,
the manual-QC match flag, and the seven fit parameters as `fit_`-prefixed
fields — and the (clamp mode, holding) conditions of the records written for
a pair are exactly the keys of its fit mapping. -/
theorem C9_one_record_per_condition (expt : AvgExperiment) :
    avg_create_db_entries expt =
      expt.pairList.flatMap (fun p => p.fits.map (avgRecordOf p.id)) ∧
    ∀ p ∈ expt.pairList,
      (p.fits.map (avgRecordOf p.id)).map (fun r => (r.clampMode, r.holding)) =
        p.fits.map Prod.fst := by
  constructor
  · have h : avg_create_db_entries expt =
        expt.pairList.foldl
          (fun acc p => p.fits.foldl (fun a kf => a ++ [avgRecordOf p.id kf]) acc)
          [] := rfl
    rw [h, avg_pairs_foldl]
    simp
  · intro p _
    simp [avgRecordOf]

theorem C9_witness :
    avg_create_db_entries
      ⟨[⟨"p1", [(("ic", 5), ⟨1, 2, true, 3, 4, 5, 6, 7, 8, 9⟩),
               (("vc", 6), ⟨10, 11, false, 12, 13, 14, 15, 16, 17, 18⟩)]⟩]⟩ =
      [⟨"p1", "ic", 5, 1, 2, true, 3, 4, 5, 6, 7, 8, 9⟩,
       ⟨"p1", "vc", 6, 10, 11, false, 12, 13, 14, 15, 16, 17, 18⟩] ∧
    ([(("ic", 5), (⟨1, 2, true, 3, 4, 5, 6, 7, 8, 9⟩ : PairFit)),
      (("vc", 6), ⟨10, 11, false, 12, 13, 14, 15, 16, 17, 18⟩)].map
        (avgRecordOf "p1")).map (fun r => (r.clampMode, r.holding)) =
      [("ic", 5), ("vc", 6)] := by
  obtain ⟨h1, h2⟩ := C9_one_record_per_condition
      ⟨[⟨"p1", [(("ic", 5), ⟨1, 2, true, 3, 4, 5, 6, 7, 8, 9⟩),
               (("vc", 6), ⟨10, 11, false, 12, 13, 14, 15, 16, 17, 18⟩)]⟩]⟩
  exact ⟨by rw [h1]; rfl, by
    have := h2 ⟨"p1", [(("ic", 5), ⟨1, 2, true, 3, 4, 5, 6, 7, 8, 9⟩),
               (("vc", 6), ⟨10, 11, false, 12, 13, 14, 15, 16, 17, 18⟩)]⟩
      (List.mem_singleton_self _)
    simpa using this⟩
